import Mathlib

/-!
Verification development for the AI gateway repository.

The authoritative stored data model is `src/DB_schema.sql`, which contains two
revisions of the schema: an initial one (tables `clients`, `prompt_templates`,
`api_logs`, `chats`, `messages`) and a current one (tables `clients`,
`prompt_templates`, `chats`, `requests`, `API_KEYS`).  The `messages` and
`api_logs` tables exist only in the initial revision; `requests` and `API_KEYS`
only in the current one.  Tables present in both revisions are embedded from
the current revision, with the initial revision kept under a `_initial` suffix
where a claim refers to it.

Section 1 embeds the column-level schema exactly as declared in the SQL.
Section 2 gives a row-level relational model: rows are structures whose fields
are the declared columns (nullable columns become `Option`), inserts enforce
the declared PRIMARY KEY / UNIQUE / CHECK / REFERENCES constraints, and chat
deletion implements the declared `ON DELETE CASCADE` / `ON DELETE SET NULL`
actions.  Section 3 models the dispatcher described by the specification,
whose backend code is not part of the repository snapshot.
-/

namespace AIAPI

/-! ## Section 1: column-level schema, from src/DB_schema.sql -/

/-- SQL column types used in the schema file. -/
inductive SqlType where
  | uuid
  | varchar (n : Nat)
  | text
  | timestamp
  | int
  | smallint
  | boolean
  | jsonb
deriving DecidableEq, Repr

/-- Whether a SQL type can hold an integer value (INT or SMALLINT). -/
def SqlType.isIntegral : SqlType → Bool
  | SqlType.int => true
  | SqlType.smallint => true
  | _ => false

/-- Referential action attached to a foreign key. -/
inductive FkAction where
  | noAction
  | cascade
  | setNull
deriving DecidableEq, Repr

/-- One column declaration: name, type, and the constraints written on it. -/
structure Column where
  name : String
  type : SqlType
  notNull : Bool := false
  unique : Bool := false
  primaryKey : Bool := false
  refTable : Option String := none
  onDelete : FkAction := FkAction.noAction
  checkIn : Option (List String) := none
deriving DecidableEq, Repr

/-- `clients` as declared in the initial schema revision (no UNIQUE on email). -/
def clients_initial : List Column :=
  [ { name := "id", type := SqlType.uuid, primaryKey := true },
    { name := "email", type := SqlType.varchar 255, notNull := true },
    { name := "password", type := SqlType.varchar 255, notNull := true },
    { name := "created_at", type := SqlType.timestamp } ]

/-- `api_logs` as declared in the initial schema revision. -/
def api_logs : List Column :=
  [ { name := "id", type := SqlType.uuid, primaryKey := true },
    { name := "client_id", type := SqlType.uuid, refTable := some "clients" },
    { name := "model", type := SqlType.varchar 255 },
    { name := "prompt_template_id", type := SqlType.uuid, refTable := some "prompt_templates" },
    { name := "tokens_input", type := SqlType.int },
    { name := "tokens_output", type := SqlType.int },
    { name := "latency_ms", type := SqlType.int },
    { name := "error_message", type := SqlType.text },
    { name := "created_at", type := SqlType.timestamp } ]

/-- `messages` as declared in the schema (initial revision; the current
revision declares no messages table).  The role CHECK admits exactly
user, assistant and system. -/
def messages : List Column :=
  [ { name := "id", type := SqlType.uuid, primaryKey := true },
    { name := "chat_id", type := SqlType.uuid, refTable := some "chats",
      onDelete := FkAction.cascade },
    { name := "role", type := SqlType.text,
      checkIn := some ["user", "assistant", "system"] },
    { name := "content", type := SqlType.text, notNull := true },
    { name := "created_at", type := SqlType.timestamp } ]

/-- `clients` as declared in the current schema revision: email is
NOT NULL UNIQUE. -/
def clients : List Column :=
  [ { name := "id", type := SqlType.uuid, primaryKey := true },
    { name := "email", type := SqlType.varchar 255, notNull := true, unique := true },
    { name := "password", type := SqlType.varchar 255, notNull := true },
    { name := "created_at", type := SqlType.timestamp } ]

/-- `prompt_templates` as declared in the current schema revision: unique
name, template text, a version counter defaulting to 1, and a JSONB slot
for tenant-declared fields. -/
def prompt_templates : List Column :=
  [ { name := "id", type := SqlType.uuid, primaryKey := true },
    { name := "name", type := SqlType.varchar 255, unique := true },
    { name := "prompt", type := SqlType.text, notNull := true },
    { name := "created_at", type := SqlType.timestamp },
    { name := "version", type := SqlType.smallint },
    { name := "tenant_fields", type := SqlType.jsonb } ]

/-- `chats` as declared in the current schema revision. -/
def chats : List Column :=
  [ { name := "id", type := SqlType.uuid, primaryKey := true },
    { name := "client_id", type := SqlType.uuid, refTable := some "clients",
      onDelete := FkAction.cascade },
    { name := "created_at", type := SqlType.timestamp } ]

/-- `requests` as declared in the current schema revision.  Note the
foreign key to `chats` carries ON DELETE SET NULL. -/
def requests : List Column :=
  [ { name := "id", type := SqlType.uuid, primaryKey := true },
    { name := "chat_id", type := SqlType.uuid, refTable := some "chats",
      onDelete := FkAction.setNull },
    { name := "client_id", type := SqlType.uuid, refTable := some "clients" },
    { name := "prompt_template_id", type := SqlType.uuid,
      refTable := some "prompt_templates" },
    { name := "system_prompt_tenants", type := SqlType.jsonb },
    { name := "template_version", type := SqlType.smallint },
    { name := "model_name", type := SqlType.text, notNull := true },
    { name := "request", type := SqlType.text, notNull := true },
    { name := "response", type := SqlType.text, notNull := true },
    { name := "input_tokens", type := SqlType.int },
    { name := "output_tokens", type := SqlType.int },
    { name := "status", type := SqlType.boolean },
    { name := "error_message", type := SqlType.text },
    { name := "created_at", type := SqlType.timestamp } ]

/-- `API_KEYS` as declared in the current schema revision: a key is the
primary key on its own; client_id and Provider carry no uniqueness
constraint, joint or separate. -/
def API_KEYS : List Column :=
  [ { name := "api_key", type := SqlType.uuid, primaryKey := true, notNull := true },
    { name := "client_id", type := SqlType.uuid, refTable := some "clients" },
    { name := "Provider", type := SqlType.varchar 50,
      checkIn := some ["google", "openai", "anthropic", "deepseek"] } ]

/-! ## Section 2: row-level relational model

Rows carry the declared columns (`created_at` timestamps as naturals);
`Option` marks nullable columns.  Inserts return `none` when a declared
constraint (primary key, UNIQUE, CHECK, REFERENCES) would be violated. -/

/-- UUIDs are modelled as opaque strings. -/
abbrev UUID := String

/-- A row of the current `clients` table. -/
structure ClientRow where
  id : UUID
  email : String
  password : String
  created_at : Nat := 0
deriving DecidableEq, Repr

/-- A row of `chats`. -/
structure ChatRow where
  id : UUID
  client_id : Option UUID
  created_at : Nat := 0
deriving DecidableEq, Repr

/-- A row of `messages` (the schema stores no per-chat index column). -/
structure MessageRow where
  id : UUID
  chat_id : Option UUID
  role : String
  content : String
  created_at : Nat := 0
deriving DecidableEq, Repr

/-- A row of the current `prompt_templates` table; `tenant_fields` is kept
as an opaque optional payload. -/
structure TemplateRow where
  id : UUID
  name : Option String
  prompt : String
  version : Nat := 1
  tenant_fields : Option String := none
  created_at : Nat := 0
deriving DecidableEq, Repr

/-- A row of `requests`. -/
structure RequestRow where
  id : UUID
  chat_id : Option UUID
  client_id : Option UUID
  prompt_template_id : Option UUID := none
  system_prompt_tenants : Option String := none
  template_version : Nat := 1
  model_name : String
  request : String
  response : String
  input_tokens : Option Int := none
  output_tokens : Option Int := none
  status : Option Bool := none
  error_message : Option String := none
  created_at : Nat := 0
deriving DecidableEq, Repr

/-- A row of `API_KEYS`. -/
structure ApiKeyRow where
  api_key : UUID
  client_id : Option UUID
  provider : Option String
deriving DecidableEq, Repr

/-- The database state: one list of rows per table of the current schema,
plus `messages` from the initial revision (the only revision declaring it). -/
structure DB where
  clients : List ClientRow := []
  chats : List ChatRow := []
  messages : List MessageRow := []
  templates : List TemplateRow := []
  requests : List RequestRow := []
  api_keys : List ApiKeyRow := []
deriving DecidableEq, Repr

/-- The role CHECK of `messages`: role IN ('user', 'assistant', 'system'). -/
def validRole (r : String) : Bool :=
  r = "user" || r = "assistant" || r = "system"

/-- The Provider CHECK of `API_KEYS`; a SQL CHECK passes on NULL. -/
def validProvider : Option String → Bool
  | none => true
  | some p => p = "google" || p = "openai" || p = "anthropic" || p = "deepseek"

/-- Foreign-key test against `chats`: NULL passes, otherwise the chat must exist. -/
def chatFkOk (db : DB) : Option UUID → Bool
  | none => true
  | some c => db.chats.any fun x => x.id = c

/-- Foreign-key test against `clients`: NULL passes, otherwise the client must exist. -/
def clientFkOk (db : DB) : Option UUID → Bool
  | none => true
  | some c => db.clients.any fun x => x.id = c

/-- INSERT into the current `clients` table: enforces the id PRIMARY KEY
and the UNIQUE constraint on email. -/
def insertClient (db : DB) (c : ClientRow) : Option DB :=
  if db.clients.any (fun x => x.id = c.id) then none
  else if db.clients.any (fun x => x.email = c.email) then none
  else some { db with clients := db.clients ++ [c] }

/-- INSERT into `messages`: enforces the id PRIMARY KEY, the role CHECK and
the chat_id REFERENCES constraint declared in the schema. -/
def insertMessage (db : DB) (m : MessageRow) : Option DB :=
  if db.messages.any (fun x => x.id = m.id) then none
  else if !validRole m.role then none
  else if !chatFkOk db m.chat_id then none
  else some { db with messages := db.messages ++ [m] }

/-- INSERT into `API_KEYS`: enforces the api_key PRIMARY KEY, the Provider
CHECK and the client_id REFERENCES constraint; nothing in the schema
constrains the (client_id, Provider) pair. -/
def insertApiKey (db : DB) (k : ApiKeyRow) : Option DB :=
  if db.api_keys.any (fun x => x.api_key = k.api_key) then none
  else if !validProvider k.provider then none
  else if !clientFkOk db k.client_id then none
  else some { db with api_keys := db.api_keys ++ [k] }

/-- INSERT into `requests`: enforces the id PRIMARY KEY and the declared
REFERENCES constraints on chat_id and client_id. -/
def insertRequest (db : DB) (r : RequestRow) : Option DB :=
  if db.requests.any (fun x => x.id = r.id) then none
  else if !chatFkOk db r.chat_id then none
  else if !clientFkOk db r.client_id then none
  else some { db with requests := db.requests ++ [r] }

/-- DELETE of one chat row, applying the declared referential actions:
`messages.chat_id` is ON DELETE CASCADE, so the chat's message rows are
deleted; `requests.chat_id` is ON DELETE SET NULL, so request rows that
referenced the chat stay but their chat_id becomes NULL. -/
def deleteChat (db : DB) (cid : UUID) : DB :=
  { db with
    chats := db.chats.filter fun c => c.id ≠ cid
    messages := db.messages.filter fun m => m.chat_id ≠ some cid
    requests := db.requests.map fun r =>
      if r.chat_id = some cid then { r with chat_id := none } else r }

/-- The stored messages of one chat, in insertion order. -/
def chatMessages (db : DB) (cid : UUID) : List MessageRow :=
  db.messages.filter fun m => m.chat_id = some cid

/-- Sequential completion of a batch of message INSERTs; `none` as soon as
one insert violates a constraint. -/
def appendBatch : DB → List MessageRow → Option DB
  | db, [] => some db
  | db, m :: rest =>
    match insertMessage db m with
    | none => none
    | some db1 => appendBatch db1 rest

/-! ## Section 3: operations modelled from the specification

The backend application (the FastAPI service started by the repository's run
scripts) is not part of the snapshot; only the schema, example requests and a
static site are.  The operations below are therefore modelled from the
specification's words, against the stored model of Section 2. -/

/-- Modelled from the spec: the template-edit operation of the backend
(absent from the snapshot).  Per the spec, a prompt template holds "a
monotonically increasing version counter incremented on every content edit";
an edit replaces the template text of the row with the given unique name and
increments its version, touching no other table. -/
def editTemplate (db : DB) (tname : String) (newPrompt : String) : DB :=
  { db with
    templates := db.templates.map fun t =>
      if t.name = some tname then
        { t with prompt := newPrompt, version := t.version + 1 }
      else t }

/-- Errors of the registry lookup, from the spec's error taxonomy. -/
inductive DispatchError where
  | unknownProvider
  | unknownModel
deriving DecidableEq, Repr

/-- The provider registry: per provider, the list of registered model names. -/
structure Registry where
  entries : List (String × List String)
deriving DecidableEq, Repr

/-- Modelled from the spec: `resolve(provider, model)` is a pure lookup that
fails with UnknownProvider or UnknownModel (the registry code is absent from
the snapshot). -/
def Registry.resolve (reg : Registry) (pvd mdl : String) : Except DispatchError Unit :=
  match reg.entries.find? (fun e => e.fst = pvd) with
  | none => Except.error DispatchError.unknownProvider
  | some e =>
      if e.snd.contains mdl then Except.ok ()
      else Except.error DispatchError.unknownModel

/-- A buffered adapter result: full text plus token counts. -/
structure AdapterResult where
  text : String
  inputTokens : Nat
  outputTokens : Nat
deriving DecidableEq, Repr

/-- Printable name of a dispatch error, used as the recorded error message. -/
def DispatchError.message : DispatchError → String
  | DispatchError.unknownProvider => "UnknownProvider"
  | DispatchError.unknownModel => "UnknownModel"

/-- Modelled from the spec: the dispatcher's stateless generate path (the
dispatcher code is absent from the snapshot).  It resolves the (provider,
model) pair through the registry; on UnknownProvider/UnknownModel it fails
fast, invoking the adapter zero times and writing one usage row with
status false; otherwise it invokes the adapter once and writes one usage row
with status true.  The returned Nat counts adapter invocations. -/
def dispatchGenerate (reg : Registry) (adapter : String → String → AdapterResult)
    (db : DB) (rid : UUID) (clientId : Option UUID) (pvd mdl uprompt : String) :
    DB × Nat × Except DispatchError AdapterResult :=
  match Registry.resolve reg pvd mdl with
  | Except.error e =>
      ({ db with requests := db.requests ++
          [{ id := rid, chat_id := none, client_id := clientId,
             model_name := mdl, request := uprompt, response := "",
             status := some false, error_message := some e.message }] },
       0, Except.error e)
  | Except.ok _ =>
      let res := adapter mdl uprompt
      ({ db with requests := db.requests ++
          [{ id := rid, chat_id := none, client_id := clientId,
             model_name := mdl, request := uprompt, response := res.text,
             input_tokens := some (Int.ofNat res.inputTokens),
             output_tokens := some (Int.ofNat res.outputTokens),
             status := some true }] },
       1, Except.ok res)

/-- Delivery mode of a call, from the caller's stream flag. -/
inductive CallMode where
  | buffered
  | streamed
deriving DecidableEq, Repr

/-- How a dispatched call ended: a buffered or fully streamed completion
(success or provider failure), or a mid-stream cancellation after some
chunks were delivered. -/
inductive CallOutcome where
  | completed (ok : Bool) (text : String) (inTok outTok : Nat)
  | cancelledMidStream (partialText : String) (inTok outTok : Nat)
deriving DecidableEq, Repr

/-- Modelled from the spec: the usage-recording step of the dispatcher (code
absent from the snapshot).  Whatever the delivery mode and outcome —
buffered, streamed to completion, failed, or cancelled mid-stream — exactly
one usage row is appended for the call; a cancellation records the partial
text and the token counts reported before the cancellation, with
status false. -/
def recordCall (db : DB) (rid : UUID) (clientId : Option UUID)
    (chatId : Option UUID) (mdl uprompt : String) (mode : CallMode)
    (outcome : CallOutcome) : DB :=
  match mode, outcome with
  | _, CallOutcome.completed ok text inTok outTok =>
      { db with requests := db.requests ++
          [{ id := rid, chat_id := chatId, client_id := clientId,
             model_name := mdl, request := uprompt, response := text,
             input_tokens := some (Int.ofNat inTok),
             output_tokens := some (Int.ofNat outTok),
             status := some ok,
             error_message := if ok then none else some "provider failure" }] }
  | _, CallOutcome.cancelledMidStream partialText inTok outTok =>
      { db with requests := db.requests ++
          [{ id := rid, chat_id := chatId, client_id := clientId,
             model_name := mdl, request := uprompt, response := partialText,
             input_tokens := some (Int.ofNat inTok),
             output_tokens := some (Int.ofNat outTok),
             status := some false,
             error_message := some "cancelled" }] }

/-- Modelled from the spec: the stateful chat endpoint (code absent from the
snapshot).  With chatid null/absent it creates a new chat and appends the
user message then the assistant reply to it; with an existing chatid it uses
that chat and appends both turns there.  It returns the updated state and
the echoed chat id. -/
def handleChat (db : DB) (freshChat mid1 mid2 : UUID) (clientId : Option UUID)
    (chatid : Option UUID) (userPrompt assistantReply : String) : DB × UUID :=
  match chatid with
  | none =>
      let cid := freshChat
      let db1 : DB := { db with chats := db.chats ++ [{ id := cid, client_id := clientId }] }
      let db2 : DB := { db1 with messages := db1.messages ++
        [{ id := mid1, chat_id := some cid, role := "user", content := userPrompt },
         { id := mid2, chat_id := some cid, role := "assistant", content := assistantReply }] }
      (db2, cid)
  | some cid =>
      let db2 : DB := { db with messages := db.messages ++
        [{ id := mid1, chat_id := some cid, role := "user", content := userPrompt },
         { id := mid2, chat_id := some cid, role := "assistant", content := assistantReply }] }
      (db2, cid)

/-! ## Section 4: concrete instances used by the theorems below -/

/-- A stored chat. -/
def chatC1 : ChatRow := { id := "c1", client_id := some "u1" }

/-- A stored client. -/
def clientU1 : ClientRow := { id := "u1", email := "a@example.com", password := "pw" }

/-- A stored request referencing chat c1, as written by a successful call. -/
def reqR1 : RequestRow :=
  { id := "r1", chat_id := some "c1", client_id := some "u1",
    model_name := "gemini-1.5-flash-latest", request := "hello", response := "hi",
    input_tokens := some 2, output_tokens := some 1, status := some true }

/-- A small database with one client, one chat and one request. -/
def db0 : DB := { clients := [clientU1], chats := [chatC1], requests := [reqR1] }

/-- A message with role tool, otherwise satisfying every constraint. -/
def toolMsg : MessageRow :=
  { id := "m9", chat_id := some "c1", role := "tool", content := "result" }

/-- The same message with role user instead. -/
def userMsg : MessageRow :=
  { id := "m9", chat_id := some "c1", role := "user", content := "result" }

/-- A client row whose email collides with the stored client clientU1. -/
def dupClient : ClientRow := { id := "u2", email := "a@example.com", password := "zz" }

/-- Two user/assistant messages for chat c1, fresh ids. -/
def batchMsgs : List MessageRow :=
  [ { id := "m1", chat_id := some "c1", role := "user", content := "hello" },
    { id := "m2", chat_id := some "c1", role := "assistant", content := "hi there" } ]

/-- A stored prompt template at version 1. -/
def tpl1 : TemplateRow :=
  { id := "t1", name := some "empty_template", prompt := "SystemPrompt: {SystemPrompt}" }

/-- A database holding the template and a request that pinned its version 1. -/
def db3 : DB :=
  { clients := [clientU1], templates := [tpl1],
    requests := [{ id := "r2", chat_id := none, client_id := some "u1",
                   prompt_template_id := some "t1", template_version := 1,
                   model_name := "gpt-3.5-turbo", request := "rendered text v1",
                   response := "apple", status := some true }] }

/-- A registry with one provider and one model, as in the repository's
example requests. -/
def reg0 : Registry := { entries := [("google", ["gemini-1.5-flash-latest"])] }

/-- A constant adapter used to exercise the dispatcher. -/
def adapter0 : String → String → AdapterResult :=
  fun _ _ => { text := "pong", inputTokens := 2, outputTokens := 1 }

/-- Two API keys of the same client for the same provider, distinct key values. -/
def keyK1 : ApiKeyRow := { api_key := "k1", client_id := some "u1", provider := some "openai" }

/-- The second key for the same (client, provider) pair. -/
def keyK2 : ApiKeyRow := { api_key := "k2", client_id := some "u1", provider := some "openai" }

/-- db0 extended with the first API key stored. -/
def db9 : DB := { db0 with api_keys := [keyK1] }

/-- Preconditions for a batch of message inserts on one chat: the chat
exists, every message of the batch addresses it with a role passing the
CHECK, and the batch ids are fresh and pairwise distinct. -/
def BatchOk (db : DB) (cid : UUID) (ms : List MessageRow) : Prop :=
  (db.chats.any fun c => c.id = cid) = true ∧
  (∀ m ∈ ms, m.chat_id = some cid ∧ validRole m.role = true) ∧
  List.Nodup (db.messages.map MessageRow.id ++ ms.map MessageRow.id)

/-- Emails of stored clients are pairwise distinct. -/
def EmailsUnique (db : DB) : Prop :=
  db.clients.Pairwise fun a b => a.email ≠ b.email

/-! ## Section 5: theorems -/

/-- A message insert whose id is fresh, whose role passes the CHECK and
whose chat reference resolves succeeds and appends the row. -/
lemma insertMessage_ok (db : DB) (m : MessageRow)
    (hid : (db.messages.any fun x => x.id = m.id) = false)
    (hrole : validRole m.role = true)
    (hfk : chatFkOk db m.chat_id = true) :
    insertMessage db m = some { db with messages := db.messages ++ [m] } := by
  unfold insertMessage
  rw [hid, hrole, hfk]
  rfl

/-- A batch of sequential message inserts satisfying the batch precondition
succeeds, appending exactly the batch in order and touching no other table. -/
lemma appendBatch_ok : ∀ (ms : List MessageRow) (db : DB) (cid : UUID),
    BatchOk db cid ms →
    appendBatch db ms = some { db with messages := db.messages ++ ms } := by
  intro ms
  induction ms with
  | nil =>
      intro db cid _
      simp [appendBatch]
  | cons m rest ih =>
      intro db cid h
      obtain ⟨hchat, hall, hnodup⟩ := h
      have hm := hall m (List.mem_cons_self m rest)
      have hdisj :
          (db.messages.map MessageRow.id).Disjoint ((m :: rest).map MessageRow.id) :=
        (List.nodup_append.mp hnodup).2.2
      have hid : (db.messages.any fun x => x.id = m.id) = false := by
        rw [List.any_eq_false]
        intro x hx
        simp only [decide_eq_true_eq]
        intro hEq
        exact hdisj (List.mem_map.mpr ⟨x, hx, hEq⟩) (by simp)
      have hfk : chatFkOk db m.chat_id = true := by
        rw [hm.1]
        simpa [chatFkOk] using hchat
      have hins := insertMessage_ok db m hid hm.2 hfk
      have hstep :
          appendBatch db (m :: rest)
            = appendBatch { db with messages := db.messages ++ [m] } rest := by
        rw [appendBatch, hins]
      rw [hstep]
      have hok1 : BatchOk { db with messages := db.messages ++ [m] } cid rest := by
        refine ⟨hchat, fun x hx => hall x (List.mem_cons_of_mem m hx), ?_⟩
        have : ({ db with messages := db.messages ++ [m] } : DB).messages.map
            MessageRow.id ++ rest.map MessageRow.id
            = db.messages.map MessageRow.id ++ (m :: rest).map MessageRow.id := by
          simp
        rw [this]
        exact hnodup
      rw [ih { db with messages := db.messages ++ [m] } cid hok1]
      simp

/-- Deleting a chat leaves every stored request row present with every field
except possibly chat_id unchanged; chat_id is nulled exactly when it
referenced the deleted chat. -/
lemma deleteChat_request_frame (db : DB) (cid : UUID) (r : RequestRow)
    (hr : r ∈ db.requests) :
    ∃ r' ∈ (deleteChat db cid).requests,
      r'.id = r.id ∧ r'.client_id = r.client_id ∧
      r'.prompt_template_id = r.prompt_template_id ∧
      r'.system_prompt_tenants = r.system_prompt_tenants ∧
      r'.template_version = r.template_version ∧
      r'.model_name = r.model_name ∧ r'.request = r.request ∧
      r'.response = r.response ∧ r'.input_tokens = r.input_tokens ∧
      r'.output_tokens = r.output_tokens ∧ r'.status = r.status ∧
      r'.error_message = r.error_message ∧ r'.created_at = r.created_at ∧
      (if r.chat_id = some cid then r'.chat_id = none else r'.chat_id = r.chat_id) := by
  refine ⟨if r.chat_id = some cid then { r with chat_id := none } else r, ?_, ?_⟩
  · unfold deleteChat
    exact List.mem_map.mpr ⟨r, hr, rfl⟩
  · by_cases hc : r.chat_id = some cid <;> simp [hc]

/-- C4 counterexample: the claim lists fields the `requests` table does not
have.  The table has no provider column, no latency column and no
reasoning-token column; its only BOOLEAN column is `status` (the success
flag), so no own-API-key flag is stored either; its only integer columns are
the pinned template version and the input/output token counts. -/
theorem C4_counterexample :
    (requests.map Column.name).contains "provider" = false ∧
    (requests.map Column.name).contains "latency_ms" = false ∧
    (requests.map Column.name).contains "reasoning_tokens" = false ∧
    ((requests.filter fun c => c.type = SqlType.boolean).map Column.name
      = ["status"]) ∧
    ((requests.filter fun c => c.type.isIntegral).map Column.name
      = ["template_version", "input_tokens", "output_tokens"]) := by
  refine ⟨rfl, rfl, rfl, rfl, rfl⟩

/-- C4 (amended): a Request row stores exactly the columns declared in the
schema — client, chat reference, template reference with pinned version and
tenant payload, model name, request and response text, input and output
token counts, a boolean success flag, an optional error message, and a
timestamp — but not the provider, not an own-API-key flag, not a reasoning
token count and not latency; a latency column exists only in the legacy
`api_logs` table. -/
theorem C4_request_fields_amended :
    requests.map Column.name =
      ["id", "chat_id", "client_id", "prompt_template_id",
       "system_prompt_tenants", "template_version", "model_name", "request",
       "response", "input_tokens", "output_tokens", "status", "error_message",
       "created_at"] ∧
    (api_logs.map Column.name).contains "latency_ms" = true ∧
    (∃ col ∈ requests, col.name = "status" ∧ col.type = SqlType.boolean) ∧
    (∃ col ∈ requests, col.name = "error_message" ∧ col.notNull = false) := by
  refine ⟨rfl, rfl, ?_, ?_⟩ <;> decide

/-- C5 counterexample: the role CHECK of `messages` admits only user,
assistant and system, so a message with role tool is rejected even though it
satisfies every other constraint, while the identical message with role
user is stored. -/
theorem C5_counterexample :
    validRole "tool" = false ∧
    insertMessage db0 toolMsg = none ∧
    insertMessage db0 userMsg = some { db0 with messages := [userMsg] } ∧
    ∃ col ∈ messages, col.name = "role" ∧
      col.checkIn = some ["user", "assistant", "system"] := by
  refine ⟨rfl, rfl, rfl, ?_⟩
  decide

/-- C5 (amended): every storable message role is one of exactly the three
values user, assistant and system; role tool is not storable. -/
theorem C5_role_check_amended (db : DB) (m : MessageRow) (db' : DB)
    (h : insertMessage db m = some db') :
    (m.role = "user" ∨ m.role = "assistant" ∨ m.role = "system") ∧
    m.role ≠ "tool" := by
  have hrole : validRole m.role = true := by
    unfold insertMessage at h
    by_cases h1 : (db.messages.any fun x => x.id = m.id) = true
    · rw [if_pos h1] at h; exact absurd h (by simp)
    · rw [if_neg h1] at h
      by_cases h2 : validRole m.role = true
      · exact h2
      · rw [Bool.not_eq_true] at h2
        rw [h2] at h
        exact absurd h (by simp)
  have hd : m.role = "user" ∨ m.role = "assistant" ∨ m.role = "system" := by
    unfold validRole at hrole
    simpa [or_assoc] using hrole
  refine ⟨hd, ?_⟩
  rcases hd with h | h | h <;> rw [h] <;> decide

/-- C5 witness: a concrete successful insert, whose role is user. -/
theorem C5_role_check_amended_witness :
    (userMsg.role = "user" ∨ userMsg.role = "assistant" ∨ userMsg.role = "system") ∧
    userMsg.role ≠ "tool" :=
  C5_role_check_amended db0 userMsg { db0 with messages := [userMsg] } rfl

/-- C2 counterexample: a stored request row is mutated after creation —
deleting the chat it references rewrites its chat_id from the chat's id to
NULL while the row (same primary key) remains stored. -/
theorem C2_counterexample :
    (deleteChat db0 "c1").requests ≠ db0.requests ∧
    (deleteChat db0 "c1").requests.map RequestRow.chat_id = [none] ∧
    db0.requests.map RequestRow.chat_id = [some "c1"] ∧
    (deleteChat db0 "c1").requests.map RequestRow.id = ["r1"] := by
  refine ⟨by decide, rfl, rfl, rfl⟩

/-- C2 (amended): recording a dispatched call — in buffered or streamed
mode, completed successfully, failed, or cancelled mid-stream — appends
exactly one usage row and leaves every previously stored row unchanged;
sessions and clients are untouched; and the only mutation any operation
performs on a stored request row is setting chat_id to NULL when its chat is
deleted, every other field surviving unchanged. -/
theorem C2_one_usage_row_amended (db : DB) (rid : UUID)
    (clientId chatId : Option UUID) (mdl uprompt : String) (mode : CallMode)
    (outcome : CallOutcome) :
    (∃ nr : RequestRow,
      (recordCall db rid clientId chatId mdl uprompt mode outcome).requests
        = db.requests ++ [nr] ∧ nr.id = rid) ∧
    (recordCall db rid clientId chatId mdl uprompt mode outcome).clients
      = db.clients ∧
    (recordCall db rid clientId chatId mdl uprompt mode outcome).messages
      = db.messages ∧
    ∀ cid : UUID, ∀ r ∈ db.requests,
      ∃ r' ∈ (deleteChat db cid).requests,
        r'.id = r.id ∧ r'.client_id = r.client_id ∧
        r'.model_name = r.model_name ∧ r'.request = r.request ∧
        r'.response = r.response ∧ r'.input_tokens = r.input_tokens ∧
        r'.output_tokens = r.output_tokens ∧ r'.status = r.status ∧
        r'.error_message = r.error_message ∧
        (r'.chat_id = r.chat_id ∨ (r.chat_id = some cid ∧ r'.chat_id = none)) := by
  refine ⟨?_, ?_, ?_, ?_⟩
  · cases mode <;> cases outcome <;> exact ⟨_, rfl, rfl⟩
  · cases mode <;> cases outcome <;> rfl
  · cases mode <;> cases outcome <;> rfl
  · intro cid r hr
    obtain ⟨r', hmem, h1, h2, _, _, _, h6, h7, h8, h9, h10, h11, h12, _, hif⟩ :=
      deleteChat_request_frame db cid r hr
    refine ⟨r', hmem, h1, h2, h6, h7, h8, h9, h10, h11, h12, ?_⟩
    by_cases hc : r.chat_id = some cid
    · rw [if_pos hc] at hif
      exact Or.inr ⟨hc, hif⟩
    · rw [if_neg hc] at hif
      exact Or.inl hif

/-- C2 witness: one concrete cancelled streamed call appends exactly one
usage row. -/
theorem C2_one_usage_row_amended_witness :
    ∃ nr : RequestRow,
      (recordCall db0 "r9" (some "u1") (some "c1") "m" "p" CallMode.streamed
        (CallOutcome.cancelledMidStream "partial" 1 2)).requests
        = db0.requests ++ [nr] ∧ nr.id = "r9" :=
  (C2_one_usage_row_amended db0 "r9" (some "u1") (some "c1") "m" "p"
    CallMode.streamed (CallOutcome.cancelledMidStream "partial" 1 2)).1

/-- C10: deleting a chat does not delete its request rows — each request
that referenced the deleted chat survives with chat_id set to NULL and every
other field (client, template reference and pinned version, model, request
and response text, token counts, status, error message, timestamp)
unchanged; the request count is preserved and the chat row itself is gone. -/
theorem C10_delete_chat_frame (db : DB) (cid : UUID) (r : RequestRow)
    (hr : r ∈ db.requests) (hc : r.chat_id = some cid) :
    (∃ r' ∈ (deleteChat db cid).requests,
      r'.id = r.id ∧ r'.chat_id = none ∧ r'.client_id = r.client_id ∧
      r'.prompt_template_id = r.prompt_template_id ∧
      r'.system_prompt_tenants = r.system_prompt_tenants ∧
      r'.template_version = r.template_version ∧
      r'.model_name = r.model_name ∧ r'.request = r.request ∧
      r'.response = r.response ∧ r'.input_tokens = r.input_tokens ∧
      r'.output_tokens = r.output_tokens ∧ r'.status = r.status ∧
      r'.error_message = r.error_message ∧ r'.created_at = r.created_at) ∧
    (deleteChat db cid).requests.length = db.requests.length ∧
    ∀ c ∈ (deleteChat db cid).chats, c.id ≠ cid := by
  refine ⟨?_, ?_, ?_⟩
  · obtain ⟨r', hmem, h1, h2, h3, h4, h5, h6, h7, h8, h9, h10, h11, h12, h13, hif⟩ :=
      deleteChat_request_frame db cid r hr
    rw [if_pos hc] at hif
    exact ⟨r', hmem, h1, hif, h2, h3, h4, h5, h6, h7, h8, h9, h10, h11, h12, h13⟩
  · simp [deleteChat]
  · intro c hcm
    have := List.mem_filter.mp hcm
    simpa using this.2

/-- C10 witness: the concrete database db0, whose single request references
chat c1. -/
theorem C10_delete_chat_frame_witness :
    (∃ r' ∈ (deleteChat db0 "c1").requests,
      r'.id = reqR1.id ∧ r'.chat_id = none ∧ r'.client_id = reqR1.client_id ∧
      r'.prompt_template_id = reqR1.prompt_template_id ∧
      r'.system_prompt_tenants = reqR1.system_prompt_tenants ∧
      r'.template_version = reqR1.template_version ∧
      r'.model_name = reqR1.model_name ∧ r'.request = reqR1.request ∧
      r'.response = reqR1.response ∧ r'.input_tokens = reqR1.input_tokens ∧
      r'.output_tokens = reqR1.output_tokens ∧ r'.status = reqR1.status ∧
      r'.error_message = reqR1.error_message ∧
      r'.created_at = reqR1.created_at) ∧
    (deleteChat db0 "c1").requests.length = db0.requests.length ∧
    ∀ c ∈ (deleteChat db0 "c1").chats, c.id ≠ "c1" :=
  C10_delete_chat_frame db0 "c1" reqR1 (by decide) rfl

/-- C1 counterexample: the claim presumes that stored messages carry a
per-chat integer index, but the `messages` table declares no such column —
it has no integer-typed column at all, only id, chat_id, role, content and
created_at — so after any number of appends the set of stored indices is
empty, never {0,…,N-1}. -/
theorem C1_counterexample :
    messages.map Column.name = ["id", "chat_id", "role", "content", "created_at"] ∧
    (messages.filter fun c => c.type.isIntegral) = [] ∧
    (messages.map Column.name).contains "index" = false := by
  refine ⟨rfl, rfl, rfl⟩

/-- C1 (amended): the schema stores no per-chat message index.  After N
sequential completed appends to a chat that starts empty, the chat's stored
messages are exactly the N appended rows in order — so their derived
positions in creation order are exactly 0,…,N-1 with no gap or duplicate —
but no index is recorded in any row, the `messages` table having no integer
column, and the schema enforces nothing about concurrent writers. -/
theorem C1_gapless_positions_amended (db : DB) (cid : UUID)
    (ms : List MessageRow) (h : BatchOk db cid ms)
    (h0 : chatMessages db cid = []) :
    ∃ db', appendBatch db ms = some db' ∧
      chatMessages db' cid = ms ∧
      (chatMessages db' cid).length = ms.length ∧
      (messages.filter fun c => c.type.isIntegral) = [] := by
  refine ⟨{ db with messages := db.messages ++ ms }, appendBatch_ok ms db cid h, ?_, ?_, rfl⟩
  · have hall := h.2.1
    unfold chatMessages at h0 ⊢
    rw [List.filter_append, h0, List.nil_append]
    rw [List.filter_eq_self]
    intro m hm
    simp [(hall m hm).1]
  · have hall := h.2.1
    unfold chatMessages at h0 ⊢
    rw [List.filter_append, h0, List.nil_append]
    rw [List.filter_eq_self.mpr]
    intro m hm
    simp [(hall m hm).1]

/-- C1 witness: a concrete two-message batch on the empty chat c1. -/
theorem C1_gapless_positions_amended_witness :
    ∃ db', appendBatch db0 batchMsgs = some db' ∧
      chatMessages db' "c1" = batchMsgs ∧
      (chatMessages db' "c1").length = batchMsgs.length ∧
      (messages.filter fun c => c.type.isIntegral) = [] :=
  C1_gapless_positions_amended db0 "c1" batchMsgs
    (by refine ⟨rfl, ?_, ?_⟩ <;> decide) rfl

/-- C3: version pinning round-trip — editing a stored template (replacing
its text and incrementing its version from V to V+1) leaves the whole
`requests` table unchanged, hence the text and the pinned template_version
recorded for every past request, while the template row now carries
version V+1 and the new text. -/
theorem C3_version_pinning (db : DB) (tname np : String) (t : TemplateRow)
    (ht : t ∈ db.templates) (hn : t.name = some tname) :
    (editTemplate db tname np).requests = db.requests ∧
    ∃ t' ∈ (editTemplate db tname np).templates,
      t'.id = t.id ∧ t'.version = t.version + 1 ∧ t'.prompt = np := by
  refine ⟨rfl, ⟨{ t with prompt := np, version := t.version + 1 }, ?_, rfl, rfl, rfl⟩⟩
  unfold editTemplate
  exact List.mem_map.mpr ⟨t, ht, by rw [if_pos hn]⟩

/-- C3 witness: the concrete template tpl1 at version 1 pinned by the
request stored in db3. -/
theorem C3_version_pinning_witness :
    (editTemplate db3 "empty_template" "new text").requests = db3.requests ∧
    ∃ t' ∈ (editTemplate db3 "empty_template" "new text").templates,
      t'.id = tpl1.id ∧ t'.version = tpl1.version + 1 ∧ t'.prompt = "new text" :=
  C3_version_pinning db3 "empty_template" "new text" tpl1 (by decide) rfl

/-- C6: client emails are unique — inserting into a database whose stored
emails are pairwise distinct preserves that distinctness, inserting a
client whose email equals a stored client's email fails, and the schema
declares the email column UNIQUE. -/
theorem C6_email_unique (db : DB) (c : ClientRow) (h : EmailsUnique db) :
    (∀ db', insertClient db c = some db' → EmailsUnique db') ∧
    ((∃ c0 ∈ db.clients, c0.email = c.email) → insertClient db c = none) ∧
    ∃ col ∈ clients, col.name = "email" ∧ col.unique = true := by
  refine ⟨?_, ?_, by decide⟩
  · intro db' hdb
    unfold insertClient at hdb
    by_cases h1 : (db.clients.any fun x => x.id = c.id) = true
    · rw [if_pos h1] at hdb
      exact absurd hdb (by simp)
    · rw [if_neg h1] at hdb
      by_cases h2 : (db.clients.any fun x => x.email = c.email) = true
      · rw [if_pos h2] at hdb
        exact absurd hdb (by simp)
      · rw [if_neg h2] at hdb
        have hdb' : ({ db with clients := db.clients ++ [c] } : DB) = db' :=
          Option.some.inj hdb
        rw [← hdb']
        unfold EmailsUnique at h ⊢
        rw [List.pairwise_append]
        refine ⟨h, List.pairwise_singleton _ _, ?_⟩
        intro a ha b hb
        rw [List.mem_singleton] at hb
        subst hb
        intro he
        apply h2
        rw [List.any_eq_true]
        exact ⟨a, ha, by simp [he]⟩
  · rintro ⟨c0, hc0, he⟩
    unfold insertClient
    by_cases h1 : (db.clients.any fun x => x.id = c.id) = true
    · rw [if_pos h1]
    · rw [if_neg h1, if_pos]
      rw [List.any_eq_true]
      exact ⟨c0, hc0, by simp [he]⟩

/-- C6 witness: db0 has pairwise distinct emails, and inserting dupClient
(same email, different id) fails. -/
theorem C6_email_unique_witness :
    ((∃ c0 ∈ db0.clients, c0.email = dupClient.email) →
      insertClient db0 dupClient = none) ∧
    insertClient db0 dupClient = none := by
  have hu : EmailsUnique db0 := by
    unfold EmailsUnique
    rw [show db0.clients = [clientU1] from rfl]
    exact List.pairwise_singleton _ _
  have h := (C6_email_unique db0 dupClient hu).2.1
  exact ⟨h, h (by decide)⟩

/-- C7: a generate request naming an unregistered provider or model fails
fast — the registry lookup error is returned, the adapter is invoked zero
times, and exactly one usage row is written, with status false and the
error name recorded. -/
theorem C7_unknown_fails_fast (reg : Registry)
    (adapter : String → String → AdapterResult) (db : DB) (rid : UUID)
    (clientId : Option UUID) (pvd mdl uprompt : String) (e : DispatchError)
    (h : Registry.resolve reg pvd mdl = Except.error e) :
    (dispatchGenerate reg adapter db rid clientId pvd mdl uprompt).2.1 = 0 ∧
    (dispatchGenerate reg adapter db rid clientId pvd mdl uprompt).2.2
      = Except.error e ∧
    ∃ nr : RequestRow,
      (dispatchGenerate reg adapter db rid clientId pvd mdl uprompt).1.requests
        = db.requests ++ [nr] ∧
      nr.status = some false ∧ nr.error_message = some e.message ∧ nr.id = rid := by
  unfold dispatchGenerate
  rw [h]
  exact ⟨rfl, rfl, ⟨_, rfl, rfl, rfl, rfl⟩⟩

/-- C7 witness: the registry reg0 knows only the google provider, so a
request naming openai fails with UnknownProvider, zero adapter calls and
one failed usage row. -/
theorem C7_unknown_fails_fast_witness :
    (dispatchGenerate reg0 adapter0 db0 "r7" (some "u1") "openai"
      "gpt-3.5-turbo" "ping").2.1 = 0 ∧
    (dispatchGenerate reg0 adapter0 db0 "r7" (some "u1") "openai"
      "gpt-3.5-turbo" "ping").2.2 = Except.error DispatchError.unknownProvider ∧
    ∃ nr : RequestRow,
      (dispatchGenerate reg0 adapter0 db0 "r7" (some "u1") "openai"
        "gpt-3.5-turbo" "ping").1.requests = db0.requests ++ [nr] ∧
      nr.status = some false ∧
      nr.error_message = some DispatchError.unknownProvider.message ∧
      nr.id = "r7" :=
  C7_unknown_fails_fast reg0 adapter0 db0 "r7" (some "u1") "openai"
    "gpt-3.5-turbo" "ping" DispatchError.unknownProvider rfl

/-- C8: a stateful chat request with chatid null creates a new chat, stores
the user message then the assistant reply as that chat's messages — the
chat's ordered message list is exactly [user turn, assistant turn], so the
user turn sits at position 0 and the assistant turn at position 1 — and
echoes the new chat's id; a request supplying an existing chatid appends
both turns to that chat, creates no chat, and echoes that id back. -/
theorem C8_chat_flow (db : DB) (freshChat mid1 mid2 : UUID)
    (clientId : Option UUID) (userPrompt assistantReply : String) (cid : UUID)
    (hfresh : chatMessages db freshChat = [])
    (_hex : cid ∈ db.chats.map ChatRow.id) :
    (handleChat db freshChat mid1 mid2 clientId none userPrompt assistantReply).2
      = freshChat ∧
    ({ id := freshChat, client_id := clientId, created_at := 0 } : ChatRow)
      ∈ (handleChat db freshChat mid1 mid2 clientId none userPrompt
          assistantReply).1.chats ∧
    chatMessages (handleChat db freshChat mid1 mid2 clientId none userPrompt
        assistantReply).1 freshChat
      = [ { id := mid1, chat_id := some freshChat, role := "user",
            content := userPrompt, created_at := 0 },
          { id := mid2, chat_id := some freshChat, role := "assistant",
            content := assistantReply, created_at := 0 } ] ∧
    (handleChat db freshChat mid1 mid2 clientId (some cid) userPrompt
      assistantReply).2 = cid ∧
    (handleChat db freshChat mid1 mid2 clientId (some cid) userPrompt
      assistantReply).1.chats = db.chats ∧
    (handleChat db freshChat mid1 mid2 clientId (some cid) userPrompt
        assistantReply).1.messages
      = db.messages ++
        [ { id := mid1, chat_id := some cid, role := "user",
            content := userPrompt, created_at := 0 },
          { id := mid2, chat_id := some cid, role := "assistant",
            content := assistantReply, created_at := 0 } ] := by
  refine ⟨rfl, ?_, ?_, rfl, rfl, rfl⟩
  · unfold handleChat
    exact List.mem_append.mpr (Or.inr (List.mem_singleton.mpr rfl))
  · unfold chatMessages at hfresh
    unfold handleChat chatMessages
    rw [List.filter_append, hfresh, List.nil_append]
    simp

/-- C8 witness: db0 with new chat id c9 and existing chat c1. -/
theorem C8_chat_flow_witness :
    (handleChat db0 "c9" "m1" "m2" (some "u1") none "hello" "hi!").2 = "c9" ∧
    ({ id := "c9", client_id := some "u1", created_at := 0 } : ChatRow)
      ∈ (handleChat db0 "c9" "m1" "m2" (some "u1") none "hello" "hi!").1.chats ∧
    chatMessages (handleChat db0 "c9" "m1" "m2" (some "u1") none "hello"
        "hi!").1 "c9"
      = [ { id := "m1", chat_id := some "c9", role := "user",
            content := "hello", created_at := 0 },
          { id := "m2", chat_id := some "c9", role := "assistant",
            content := "hi!", created_at := 0 } ] ∧
    (handleChat db0 "c9" "m1" "m2" (some "u1") (some "c1") "hello" "hi!").2
      = "c1" ∧
    (handleChat db0 "c9" "m1" "m2" (some "u1") (some "c1") "hello"
      "hi!").1.chats = db0.chats ∧
    (handleChat db0 "c9" "m1" "m2" (some "u1") (some "c1") "hello"
        "hi!").1.messages
      = db0.messages ++
        [ { id := "m1", chat_id := some "c1", role := "user",
            content := "hello", created_at := 0 },
          { id := "m2", chat_id := some "c1", role := "assistant",
            content := "hi!", created_at := 0 } ] :=
  C8_chat_flow db0 "c9" "m1" "m2" (some "u1") "hello" "hi!" "c1" rfl (by decide)

/-- C9: the `API_KEYS` table does not forbid several keys per
(client, provider) pair — given a stored key, inserting a second key with a
fresh key value but the same client and provider succeeds, after which two
distinct keys of the same pair are stored. -/
theorem C9_second_key_allowed (db : DB) (k1 k2 : ApiKeyRow)
    (h1 : k1 ∈ db.api_keys)
    (hfresh : (db.api_keys.any fun x => x.api_key = k2.api_key) = false)
    (hcl : k2.client_id = k1.client_id) (hpv : k2.provider = k1.provider)
    (hp : validProvider k2.provider = true)
    (hc : clientFkOk db k2.client_id = true) :
    ∃ db', insertApiKey db k2 = some db' ∧ k1 ∈ db'.api_keys ∧
      k2 ∈ db'.api_keys ∧ k1.api_key ≠ k2.api_key ∧
      k2.client_id = k1.client_id ∧ k2.provider = k1.provider := by
  refine ⟨{ db with api_keys := db.api_keys ++ [k2] }, ?_, ?_, ?_, ?_, hcl, hpv⟩
  · unfold insertApiKey
    rw [hfresh, hp, hc]
    rfl
  · exact List.mem_append.mpr (Or.inl h1)
  · exact List.mem_append.mpr (Or.inr (List.mem_singleton.mpr rfl))
  · rw [List.any_eq_false] at hfresh
    have := hfresh k1 h1
    simpa using this

/-- C9 witness: db9 stores keyK1 for (u1, openai); inserting keyK2 for the
same pair succeeds. -/
theorem C9_second_key_allowed_witness :
    ∃ db', insertApiKey db9 keyK2 = some db' ∧ keyK1 ∈ db'.api_keys ∧
      keyK2 ∈ db'.api_keys ∧ keyK1.api_key ≠ keyK2.api_key ∧
      keyK2.client_id = keyK1.client_id ∧ keyK2.provider = keyK1.provider :=
  C9_second_key_allowed db9 keyK1 keyK2 (by decide) rfl rfl rfl rfl rfl

end AIAPI
